import Mathlib

/-!
# Verification of the `infra-rate-limit` crate

A shallow embedding of the rate-limiting strategies of the repository:
the shared configuration (`config.rs`), the admission result type
(`limiter.rs`), and the three strategies (`token_bucket.rs`,
`sliding_window.rs`, `fixed_window.rs`).

Modelling conventions:
* Rust `f64` values (`requests_per_second`, `tokens`) are modelled as `ℚ`
  (exact arithmetic); every concrete input used below is exactly
  representable in `f64` and all operations on it are exact there.
* `Instant` is modelled as a rational number of seconds; `Duration` values
  are nonnegative rationals.  `Instant::duration_since` saturates at zero,
  as does `Instant::saturating_duration_since`; both are modelled by
  `duration_since`.
* `Duration::from_secs_f64` panics (fails) when its argument is negative
  or at least `2^64` seconds; `duration_from_secs_checked` models this
  domain check, returning `none` exactly when the Rust call would panic.
* The clock read `Instant::now()` inside each operation becomes an
  explicit `now : ℚ` argument; each operation returns its updated state.
-/

namespace InfraRateLimit

/-- `RateLimitError` from `error.rs`. -/
inductive RateLimitError where
  | exceeded (retry_after_ms : ℕ)
  | invalidConfig (reason : String)
  | internal (reason : String)
  deriving DecidableEq, Repr

/-- `RateLimitResult` from `limiter.rs`: `Allowed` or `Denied { wait_time }`.
The wait time is the rational number of seconds of the `Duration`. -/
inductive RateLimitResult where
  | allowed
  | denied (wait_time : ℚ)
  deriving DecidableEq, Repr

/-- `RateLimitResult::is_allowed`. -/
def RateLimitResult.is_allowed : RateLimitResult → Bool
  | .allowed => true
  | .denied _ => false

/-- `RateLimitConfig` from `config.rs`. -/
structure RateLimitConfig where
  requests_per_second : ℚ
  burst_size : ℕ
  window_size : ℚ
  deriving DecidableEq, Repr

/-- `RateLimitConfig::new`: validates `requests_per_second > 0` and
`burst_size != 0`, in that order, returning `InvalidConfig` with the
source's message otherwise. -/
def RateLimitConfig.new (requests_per_second : ℚ) (burst_size : ℕ)
    (window_size : ℚ) : Except RateLimitError RateLimitConfig :=
  if requests_per_second ≤ 0 then
    .error (.invalidConfig "requests_per_second must be positive")
  else if burst_size = 0 then
    .error (.invalidConfig "burst_size must be positive")
  else
    .ok ⟨requests_per_second, burst_size, window_size⟩

/-- `RateLimitConfig::per_second`: burst defaults to `ceil(rate) as u64`
(the Rust float-to-int cast saturates below at 0, hence `Int.toNat`). -/
def RateLimitConfig.per_second (requests_per_second : ℚ) :
    Except RateLimitError RateLimitConfig :=
  RateLimitConfig.new requests_per_second (Int.toNat ⌈requests_per_second⌉) 1

/-- `Instant::duration_since` / `saturating_duration_since`: elapsed time
from `b` to `a`, zero when `a` is earlier. -/
def duration_since (a b : ℚ) : ℚ := max (a - b) 0

/-- Domain model of `Duration::from_secs_f64`, which panics when the
seconds value is negative, not finite, or at least `2^64` (the seconds
field of `Duration` is a `u64`). -/
def duration_from_secs_checked (secs : ℚ) : Option ℚ :=
  if 0 ≤ secs ∧ secs < 2 ^ 64 then some secs else none

namespace TokenBucket

/-- `BucketState` from `token_bucket.rs`. -/
structure BucketState where
  tokens : ℚ
  last_refill : ℚ
  deriving DecidableEq, Repr

/-- `TokenBucket::new`: tokens start at `burst_size`, `last_refill` at the
construction-time clock read. -/
def init (config : RateLimitConfig) (now : ℚ) : BucketState :=
  ⟨(config.burst_size : ℚ), now⟩

/-- `TokenBucket::refill`: add `elapsed * rate` tokens, clamped above at
`burst_size`, and advance `last_refill` to `now`. -/
def refill (config : RateLimitConfig) (s : BucketState) (now : ℚ) :
    BucketState :=
  let elapsed := duration_since now s.last_refill
  let new_tokens := elapsed * config.requests_per_second
  ⟨min (s.tokens + new_tokens) (config.burst_size : ℚ), now⟩

/-- `TokenBucket::calculate_wait_time` (in seconds, before the
`Duration::from_secs_f64` conversion). -/
def calculate_wait_time (config : RateLimitConfig) (tokens_needed : ℚ) : ℚ :=
  let time_per_token := 1 / config.requests_per_second
  time_per_token * tokens_needed

/-- `TokenBucket::try_acquire`: refill, then consume one token if at least
one is banked, else deny with the computed wait time. -/
def try_acquire (config : RateLimitConfig) (s : BucketState) (now : ℚ) :
    RateLimitResult × BucketState :=
  let s := refill config s now
  if s.tokens ≥ 1 then
    (.allowed, ⟨s.tokens - 1, s.last_refill⟩)
  else
    (.denied (calculate_wait_time config (1 - s.tokens)), s)

/-- `TokenBucket::available`: refill, then report `floor(tokens) as u64`
(the cast saturates below at 0). -/
def available (config : RateLimitConfig) (s : BucketState) (now : ℚ) :
    ℕ × BucketState :=
  let s := refill config s now
  (Int.toNat ⌊s.tokens⌋, s)

/-- `TokenBucket::reset`. -/
def reset (config : RateLimitConfig) (now : ℚ) : BucketState :=
  ⟨(config.burst_size : ℚ), now⟩

/-- One call of the token bucket's mutable interface, tagged with the time
at which it is made. -/
inductive Op where
  | tryAcquire (now : ℚ)
  | availableAt (now : ℚ)
  | resetAt (now : ℚ)

/-- State transition of one call. -/
def step (config : RateLimitConfig) (s : BucketState) : Op → BucketState
  | .tryAcquire now => (try_acquire config s now).2
  | .availableAt now => (available config s now).2
  | .resetAt now => reset config now

/-- Run a sequence of calls, threading the state. -/
def run (config : RateLimitConfig) (s : BucketState) : List Op → BucketState
  | [] => s
  | op :: rest => run config (step config s op) rest

/-- Run consecutive `try_acquire` calls at the given times, collecting the
results in order. -/
def runAcquires (config : RateLimitConfig) (s : BucketState) :
    List ℚ → List RateLimitResult × BucketState
  | [] => ([], s)
  | now :: rest =>
    let (r, s₁) := try_acquire config s now
    let (rs, s₂) := runAcquires config s₁ rest
    (r :: rs, s₂)

end TokenBucket

namespace SlidingWindow

/-- `WindowState` from `sliding_window.rs`: the stored request timestamps,
front (oldest) first, as the `VecDeque` holds them. -/
structure WindowState where
  requests : List ℚ
  deriving DecidableEq, Repr

/-- `SlidingWindowLimiter::new`. -/
def init : WindowState := ⟨[]⟩

/-- `SlidingWindowLimiter::clean_expired`: pop timestamps from the front
while they are strictly before `now - window_size`. -/
def clean_expired (config : RateLimitConfig) (s : WindowState) (now : ℚ) :
    WindowState :=
  let cutoff := now - config.window_size
  ⟨s.requests.dropWhile (fun first => decide (first < cutoff))⟩

/-- `SlidingWindowLimiter::calculate_wait_time`: time until the oldest
stored timestamp leaves the window, saturating at zero; zero when the
window is empty. -/
def calculate_wait_time (config : RateLimitConfig) (s : WindowState)
    (now : ℚ) : ℚ :=
  match s.requests.head? with
  | some oldest => duration_since (oldest + config.window_size) now
  | none => 0

/-- `SlidingWindowLimiter::try_acquire`: clean, then record `now` and allow
if strictly fewer than `burst_size` timestamps remain, else deny. -/
def try_acquire (config : RateLimitConfig) (s : WindowState) (now : ℚ) :
    RateLimitResult × WindowState :=
  let s := clean_expired config s now
  if s.requests.length < config.burst_size then
    (.allowed, ⟨s.requests ++ [now]⟩)
  else
    (.denied (calculate_wait_time config s now), s)

/-- `SlidingWindowLimiter::available`: clean, then
`burst_size.saturating_sub(len)` (ℕ subtraction saturates likewise). -/
def available (config : RateLimitConfig) (s : WindowState) (now : ℚ) :
    ℕ × WindowState :=
  let s := clean_expired config s now
  (config.burst_size - s.requests.length, s)

/-- `SlidingWindowLimiter::reset`. -/
def reset : WindowState := ⟨[]⟩

/-- One call of the sliding window's mutable interface, tagged with its
time. -/
inductive Op where
  | tryAcquire (now : ℚ)
  | availableAt (now : ℚ)
  | resetAt

/-- State transition of one call. -/
def step (config : RateLimitConfig) (s : WindowState) : Op → WindowState
  | .tryAcquire now => (try_acquire config s now).2
  | .availableAt now => (available config s now).2
  | .resetAt => reset

/-- Run a sequence of calls, threading the state. -/
def run (config : RateLimitConfig) (s : WindowState) : List Op → WindowState
  | [] => s
  | op :: rest => run config (step config s op) rest

end SlidingWindow

namespace FixedWindow

/-- `WindowState` from `fixed_window.rs`. -/
structure WindowState where
  count : ℕ
  window_start : ℚ
  deriving DecidableEq, Repr

/-- `FixedWindowLimiter::new`: count zero, window starting at the
construction-time clock read. -/
def init (now : ℚ) : WindowState := ⟨0, now⟩

/-- `FixedWindowLimiter::maybe_reset_window`: when at least `window_size`
has elapsed since `window_start`, zero the count and start a new window at
`now`. -/
def maybe_reset_window (config : RateLimitConfig) (s : WindowState)
    (now : ℚ) : WindowState :=
  let elapsed := duration_since now s.window_start
  if elapsed ≥ config.window_size then ⟨0, now⟩ else s

/-- `FixedWindowLimiter::calculate_wait_time`: time until the current
window ends, saturating at zero. -/
def calculate_wait_time (config : RateLimitConfig) (s : WindowState)
    (now : ℚ) : ℚ :=
  duration_since (s.window_start + config.window_size) now

/-- `FixedWindowLimiter::try_acquire`: roll the window over if expired,
then admit while `count < burst_size`. -/
def try_acquire (config : RateLimitConfig) (s : WindowState) (now : ℚ) :
    RateLimitResult × WindowState :=
  let s := maybe_reset_window config s now
  if s.count < config.burst_size then
    (.allowed, ⟨s.count + 1, s.window_start⟩)
  else
    (.denied (calculate_wait_time config s now), s)

/-- `FixedWindowLimiter::available`. -/
def available (config : RateLimitConfig) (s : WindowState) (now : ℚ) :
    ℕ × WindowState :=
  let s := maybe_reset_window config s now
  (config.burst_size - s.count, s)

/-- `FixedWindowLimiter::reset`. -/
def reset (now : ℚ) : WindowState := ⟨0, now⟩

/-- Run a list of `try_acquire` calls at the given times, collecting the
results in order. -/
def runAcquires (config : RateLimitConfig) (s : WindowState) :
    List ℚ → List RateLimitResult × WindowState
  | [] => ([], s)
  | now :: rest =>
    let (r, s₁) := try_acquire config s now
    let (rs, s₂) := runAcquires config s₁ rest
    (r :: rs, s₂)

end FixedWindow

/-- The `acquire` loop shared verbatim by the three strategies
(`token_bucket.rs`, `sliding_window.rs`, `fixed_window.rs`): repeatedly
call `try_acquire`; return `Ok(())` on `Allowed`, sleep and retry on
`Denied`.  The loop is modelled against a schedule of clock readings, one
per iteration; an exhausted schedule (`none`) is the still-looping case. -/
def acquireLoop {σ : Type} (tryAcq : σ → ℚ → RateLimitResult × σ) :
    List ℚ → σ → Option (Except RateLimitError Unit × σ)
  | [], _ => none
  | now :: rest, s =>
    match tryAcq s now with
    | (.allowed, s') => some (.ok (), s')
    | (.denied _, s') => acquireLoop tryAcq rest s'

/-- The state reached after a prefix of `acquire` loop iterations,
threading each iteration's post-`try_acquire` state into the next. -/
def threadState {σ : Type} (tryAcq : σ → ℚ → RateLimitResult × σ) :
    List ℚ → σ → σ
  | [], s => s
  | now :: rest, s => threadState tryAcq rest (tryAcq s now).2

/-- `TokenBucket::acquire`. -/
def TokenBucket.acquire (config : RateLimitConfig) (sched : List ℚ)
    (s : TokenBucket.BucketState) :
    Option (Except RateLimitError Unit × TokenBucket.BucketState) :=
  acquireLoop (TokenBucket.try_acquire config) sched s

/-- `SlidingWindowLimiter::acquire`. -/
def SlidingWindow.acquire (config : RateLimitConfig) (sched : List ℚ)
    (s : SlidingWindow.WindowState) :
    Option (Except RateLimitError Unit × SlidingWindow.WindowState) :=
  acquireLoop (SlidingWindow.try_acquire config) sched s

/-- `FixedWindowLimiter::acquire`. -/
def FixedWindow.acquire (config : RateLimitConfig) (sched : List ℚ)
    (s : FixedWindow.WindowState) :
    Option (Except RateLimitError Unit × FixedWindow.WindowState) :=
  acquireLoop (FixedWindow.try_acquire config) sched s

/-! ## Shared concrete configurations and helper lemmas -/

/-- The configuration produced by `Config::per_second(10.0)`:
rate 10/s, burst 10, window 1 s. -/
def cfg_ps10 : RateLimitConfig := ⟨10, 10, 1⟩

/-- A sliding-window configuration with burst 1 and a one-second window. -/
def cfg_sw1 : RateLimitConfig := ⟨10, 1, 1⟩

/-- A valid configuration whose rate, `2⁻⁷⁰` requests per second, is tiny
(and exactly representable in `f64`). -/
def cfg_tiny : RateLimitConfig := ⟨1 / 2 ^ 70, 1, 1⟩

/-- The head surviving `dropWhile` fails the predicate. -/
theorem head_of_dropWhile_false {α : Type} (p : α → Bool) (l : List α)
    (a : α) (rest : List α) (h : l.dropWhile p = a :: rest) : p a = false := by
  simpa [h] using List.head?_dropWhile_not p l

/-- `dropWhile` that loses no length is the identity. -/
theorem dropWhile_eq_self_of_length {α : Type} (p : α → Bool) (l : List α)
    (h : l.length ≤ (l.dropWhile p).length) : l.dropWhile p = l :=
  (List.dropWhile_sublist p).eq_of_length
    (le_antisymm (List.dropWhile_sublist p).length_le h)

namespace TokenBucket

/-- Refilling keeps `tokens` within `[0, burst_size]` whenever the rate is
nonnegative and the incoming token count is nonnegative. -/
theorem refill_bounds (config : RateLimitConfig) (s : BucketState) (now : ℚ)
    (hrate : 0 ≤ config.requests_per_second) (h0 : 0 ≤ s.tokens) :
    0 ≤ (refill config s now).tokens ∧
      (refill config s now).tokens ≤ (config.burst_size : ℚ) := by
  unfold refill duration_since
  refine ⟨le_min (add_nonneg h0 (mul_nonneg (le_max_right _ _) hrate))
    (Nat.cast_nonneg _), min_le_right _ _⟩

/-- Every single call of the token bucket's interface preserves the
capacity invariant `0 ≤ tokens ≤ burst_size`. -/
theorem step_bounds (config : RateLimitConfig) (s : BucketState) (op : Op)
    (hrate : 0 ≤ config.requests_per_second)
    (h : 0 ≤ s.tokens ∧ s.tokens ≤ (config.burst_size : ℚ)) :
    0 ≤ (step config s op).tokens ∧
      (step config s op).tokens ≤ (config.burst_size : ℚ) := by
  cases op with
  | tryAcquire now =>
    have hb := refill_bounds config s now hrate h.1
    simp only [step, try_acquire]
    split_ifs with h1
    · dsimp only
      exact ⟨by linarith [hb.1], by linarith [hb.2]⟩
    · exact hb
  | availableAt now =>
    have hb := refill_bounds config s now hrate h.1
    simpa only [step, available] using hb
  | resetAt now =>
    exact ⟨Nat.cast_nonneg _, le_refl _⟩

/-- The capacity invariant is preserved along any call sequence. -/
theorem run_bounds (config : RateLimitConfig) (ops : List Op)
    (s : BucketState) (hrate : 0 ≤ config.requests_per_second)
    (h : 0 ≤ s.tokens ∧ s.tokens ≤ (config.burst_size : ℚ)) :
    0 ≤ (run config s ops).tokens ∧
      (run config s ops).tokens ≤ (config.burst_size : ℚ) := by
  induction ops generalizing s with
  | nil => exact h
  | cons op rest ih => exact ih _ (step_bounds config s op hrate h)

end TokenBucket

/-! ## The claims -/

/-- C1: with `Config::per_second(10.0)` (burst 10, tokens initialised to
10), ten consecutive `try_acquire()` calls with no intervening time
advance all return `Allowed`, and the eleventh returns `Denied` with a
strictly positive wait time (1/10 s). -/
theorem C1_token_bucket_burst_then_exhaust :
    RateLimitConfig.per_second 10 = .ok cfg_ps10 ∧
    (TokenBucket.runAcquires cfg_ps10 (TokenBucket.init cfg_ps10 0)
        [0, 0, 0, 0, 0, 0, 0, 0, 0, 0, 0]).1
      = List.replicate 10 .allowed ++ [.denied (1 / 10)] ∧
    (0 : ℚ) < 1 / 10 := by
  refine ⟨?_, ?_, by norm_num⟩
  · norm_num [RateLimitConfig.per_second, RateLimitConfig.new, cfg_ps10,
      Int.toNat]
  · norm_num [TokenBucket.runAcquires, TokenBucket.try_acquire,
      TokenBucket.refill, TokenBucket.init, duration_since,
      TokenBucket.calculate_wait_time, cfg_ps10, List.replicate]

/-- C5: `Config::new` fails with `InvalidConfig` naming the violated field
exactly when `rate ≤ 0` or `burst = 0`, and otherwise stores the three
fields exactly as given. -/
theorem C5_config_validation (r : ℚ) (b : ℕ) (w : ℚ) :
    (r ≤ 0 → RateLimitConfig.new r b w
        = .error (.invalidConfig "requests_per_second must be positive")) ∧
    (0 < r → b = 0 → RateLimitConfig.new r b w
        = .error (.invalidConfig "burst_size must be positive")) ∧
    (0 < r → b ≠ 0 → RateLimitConfig.new r b w = .ok ⟨r, b, w⟩) ∧
    ((∃ msg, RateLimitConfig.new r b w = .error (.invalidConfig msg)) ↔
      (r ≤ 0 ∨ b = 0)) := by
  refine ⟨fun h => ?_, fun hr hb => ?_, fun hr hb => ?_, ?_, ?_⟩
  · rw [RateLimitConfig.new, if_pos h]
  · rw [RateLimitConfig.new, if_neg (not_le.mpr hr), if_pos hb]
  · rw [RateLimitConfig.new, if_neg (not_le.mpr hr), if_neg hb]
  · rintro ⟨msg, hmsg⟩
    by_contra hc
    push_neg at hc
    rw [RateLimitConfig.new, if_neg (not_le.mpr hc.1), if_neg hc.2] at hmsg
    exact Except.noConfusion hmsg
  · intro h
    by_cases hr : r ≤ 0
    · exact ⟨_, by rw [RateLimitConfig.new, if_pos hr]⟩
    · rcases h with h | h
      · exact absurd h hr
      · exact ⟨_, by rw [RateLimitConfig.new, if_neg hr, if_pos h]⟩

/-- C5 witness: the three concrete instances named by the spec, obtained
from `C5_config_validation` at `(10, 10, 1 s)`, `(0, 10, 1 s)` and
`(10, 0, 1 s)`. -/
theorem C5_config_validation_witness :
    RateLimitConfig.new 10 10 1 = .ok ⟨10, 10, 1⟩ ∧
    RateLimitConfig.new 0 10 1
      = .error (.invalidConfig "requests_per_second must be positive") ∧
    RateLimitConfig.new 10 0 1
      = .error (.invalidConfig "burst_size must be positive") :=
  ⟨(C5_config_validation 10 10 1).2.2.1 (by norm_num) (by decide),
   (C5_config_validation 0 10 1).1 le_rfl,
   (C5_config_validation 10 0 1).2.1 (by norm_num) rfl⟩

/-- C2: starting from a freshly constructed token bucket, after every
sequence of `try_acquire`/`available`/`reset` calls at arbitrary times the
banked token count stays in `[0, burst_size]`, and the value `available()`
returns is at most `burst_size` (it is a `u64`, hence at least 0). -/
theorem C2_token_bucket_capacity_invariant (config : RateLimitConfig)
    (hrate : 0 ≤ config.requests_per_second) (now₀ now : ℚ)
    (ops : List TokenBucket.Op) :
    (0 ≤ (TokenBucket.run config (TokenBucket.init config now₀) ops).tokens ∧
      (TokenBucket.run config (TokenBucket.init config now₀) ops).tokens
        ≤ (config.burst_size : ℚ)) ∧
    (TokenBucket.available config
        (TokenBucket.run config (TokenBucket.init config now₀) ops) now).1
      ≤ config.burst_size := by
  have hinit : 0 ≤ (TokenBucket.init config now₀).tokens ∧
      (TokenBucket.init config now₀).tokens ≤ (config.burst_size : ℚ) :=
    ⟨Nat.cast_nonneg _, le_refl _⟩
  have hrun := TokenBucket.run_bounds config ops (TokenBucket.init config now₀)
    hrate hinit
  refine ⟨hrun, ?_⟩
  have hb := TokenBucket.refill_bounds config
    (TokenBucket.run config (TokenBucket.init config now₀) ops) now hrate hrun.1
  simp only [TokenBucket.available]
  have hfloor : ⌊(TokenBucket.refill config
      (TokenBucket.run config (TokenBucket.init config now₀) ops) now).tokens⌋
      ≤ (config.burst_size : ℤ) := by
    have := Int.floor_le_floor hb.2
    rwa [Int.floor_natCast] at this
  exact Int.toNat_le.mpr hfloor

/-- C2 witness: the invariant instantiated for `Config::per_second(10.0)`
after one `try_acquire` at time 0, read at time 0. -/
theorem C2_token_bucket_capacity_invariant_witness :
    (0 ≤ (TokenBucket.run cfg_ps10 (TokenBucket.init cfg_ps10 0)
        [.tryAcquire 0]).tokens ∧
      (TokenBucket.run cfg_ps10 (TokenBucket.init cfg_ps10 0)
        [.tryAcquire 0]).tokens ≤ (cfg_ps10.burst_size : ℚ)) ∧
    (TokenBucket.available cfg_ps10
        (TokenBucket.run cfg_ps10 (TokenBucket.init cfg_ps10 0)
          [.tryAcquire 0]) 0).1 ≤ cfg_ps10.burst_size :=
  C2_token_bucket_capacity_invariant cfg_ps10 (by norm_num [cfg_ps10]) 0 0
    [.tryAcquire 0]

namespace SlidingWindow

/-- Cleaning never lengthens the stored timestamp sequence. -/
theorem clean_expired_length_le (config : RateLimitConfig)
    (s : WindowState) (now : ℚ) :
    (clean_expired config s now).requests.length ≤ s.requests.length :=
  (List.dropWhile_sublist _).length_le

/-- Every single call of the sliding window's interface preserves the
bound `length ≤ burst_size`. -/
theorem step_length_le (config : RateLimitConfig) (s : WindowState)
    (op : Op) (h : s.requests.length ≤ config.burst_size) :
    (step config s op).requests.length ≤ config.burst_size := by
  cases op with
  | tryAcquire now =>
    simp only [step, try_acquire]
    split_ifs with h1
    · dsimp only
      simp only [List.length_append, List.length_singleton]
      omega
    · exact le_trans (clean_expired_length_le config s now) h
  | availableAt now =>
    exact le_trans (clean_expired_length_le config s now) h
  | resetAt =>
    exact Nat.zero_le _

/-- The storage bound is preserved along any call sequence. -/
theorem run_length_le (config : RateLimitConfig) (ops : List Op)
    (s : WindowState) (h : s.requests.length ≤ config.burst_size) :
    (run config s ops).requests.length ≤ config.burst_size := by
  induction ops generalizing s with
  | nil => exact h
  | cons op rest ih => exact ih _ (step_length_le config s op h)

end SlidingWindow

/-- C9: after every sequence of `try_acquire`/`available`/`reset` calls
from a freshly constructed sliding-window limiter, at most `burst_size`
timestamps are stored: denied requests are never recorded and a timestamp
is appended only when the post-eviction count is strictly below the
burst. -/
theorem C9_sliding_window_bounded_storage (config : RateLimitConfig)
    (ops : List SlidingWindow.Op) :
    (SlidingWindow.run config SlidingWindow.init ops).requests.length
      ≤ config.burst_size :=
  SlidingWindow.run_length_le config ops SlidingWindow.init (Nat.zero_le _)

/-- C10: `Config::new` does not validate the window: any positive rate and
burst with a zero window is accepted, and the fixed-window limiter built
from it resets the window on every call (`elapsed ≥ 0 = window` always),
so every `try_acquire` — from any state whatsoever — returns `Allowed`. -/
theorem C10_zero_window_fixed_window_unlimited (r : ℚ) (b : ℕ)
    (hr : 0 < r) (hb : b ≠ 0) :
    RateLimitConfig.new r b 0 = .ok ⟨r, b, 0⟩ ∧
    ∀ (s : FixedWindow.WindowState) (now : ℚ),
      FixedWindow.try_acquire ⟨r, b, 0⟩ s now = (.allowed, ⟨1, now⟩) := by
  constructor
  · rw [RateLimitConfig.new, if_neg (not_le.mpr hr), if_neg hb]
  · intro s now
    simp only [FixedWindow.try_acquire, FixedWindow.maybe_reset_window,
      duration_since]
    rw [if_pos (le_max_right (now - s.window_start) 0)]
    rw [if_pos (Nat.pos_of_ne_zero hb)]

/-- C10 witness: rate 10, burst 10, zero window; a `try_acquire` from an
exhausted-looking state `{count := 10, window_start := 5}` at time 7 is
still allowed. -/
theorem C10_zero_window_fixed_window_unlimited_witness :
    RateLimitConfig.new 10 10 0 = .ok ⟨10, 10, 0⟩ ∧
    FixedWindow.try_acquire ⟨10, 10, 0⟩ ⟨10, 5⟩ 7 = (.allowed, ⟨1, 7⟩) :=
  ⟨(C10_zero_window_fixed_window_unlimited 10 10 (by norm_num) (by decide)).1,
   (C10_zero_window_fixed_window_unlimited 10 10 (by norm_num) (by decide)).2
     ⟨10, 5⟩ 7⟩

namespace FixedWindow

/-- Unfolding equation of `runAcquires` on a nonempty schedule. -/
theorem runAcquires_cons (config : RateLimitConfig) (s : WindowState)
    (t : ℚ) (ts : List ℚ) :
    runAcquires config s (t :: ts) =
      ((try_acquire config s t).1 ::
        (runAcquires config (try_acquire config s t).2 ts).1,
       (runAcquires config (try_acquire config s t).2 ts).2) := rfl

/-- `runAcquires` splits over an appended schedule. -/
theorem runAcquires_append (config : RateLimitConfig) (s : WindowState)
    (xs ys : List ℚ) :
    runAcquires config s (xs ++ ys)
      = ((runAcquires config s xs).1
          ++ (runAcquires config (runAcquires config s xs).2 ys).1,
         (runAcquires config (runAcquires config s xs).2 ys).2) := by
  induction xs generalizing s with
  | nil => rfl
  | cons t ts ih =>
    rw [List.cons_append, runAcquires_cons, runAcquires_cons, ih]
    rfl

/-- A call inside the current window (strictly less than `window_size`
after `window_start`) causes no rollover. -/
theorem maybe_reset_window_in_window (config : RateLimitConfig) (c : ℕ)
    (t0 t : ℚ) (ht0 : t0 ≤ t) (htw : t - t0 < config.window_size) :
    maybe_reset_window config ⟨c, t0⟩ t = ⟨c, t0⟩ := by
  simp only [maybe_reset_window, duration_since]
  exact if_neg (not_le.mpr (max_lt htw (by linarith)))

/-- A call inside the current window with spare count is admitted without
a rollover. -/
theorem try_acquire_in_window (config : RateLimitConfig) (c : ℕ) (t0 t : ℚ)
    (ht0 : t0 ≤ t) (htw : t - t0 < config.window_size)
    (hc : c < config.burst_size) :
    try_acquire config ⟨c, t0⟩ t = (.allowed, ⟨c + 1, t0⟩) := by
  simp only [try_acquire]
  rw [maybe_reset_window_in_window config c t0 t ht0 htw]
  exact if_pos hc

/-- Calls inside the current window just count up: from count `c` with
`c + length ≤ burst_size` they are all admitted and `window_start` is
untouched. -/
theorem runAcquires_within_window (config : RateLimitConfig) (t0 : ℚ)
    (xs : List ℚ) (c : ℕ)
    (hxs : ∀ t ∈ xs, t0 ≤ t ∧ t - t0 < config.window_size)
    (hc : c + xs.length ≤ config.burst_size) :
    runAcquires config ⟨c, t0⟩ xs
      = (List.replicate xs.length .allowed, ⟨c + xs.length, t0⟩) := by
  induction xs generalizing c with
  | nil => rfl
  | cons t ts ih =>
    obtain ⟨ht0, htw⟩ := hxs t (List.mem_cons_self t ts)
    have hstep := try_acquire_in_window config c t0 t ht0 htw
      (by simp only [List.length_cons] at hc; omega)
    rw [runAcquires_cons, hstep]
    dsimp only
    rw [ih (c + 1) (fun u hu => hxs u (List.mem_cons_of_mem t hu))
      (by simp only [List.length_cons] at hc ⊢; omega)]
    simp only [List.length_cons, List.replicate_succ, Prod.mk.injEq,
      List.cons.injEq, WindowState.mk.injEq, true_and, and_true]
    omega

/-- The rollover check never raises the count. -/
theorem maybe_reset_window_count_le (config : RateLimitConfig)
    (s : WindowState) (t : ℚ) :
    (maybe_reset_window config s t).count ≤ s.count := by
  simp only [maybe_reset_window]
  split_ifs
  · exact Nat.zero_le _
  · exact le_refl _

/-- From any state, a schedule short enough that the count cannot reach
`burst_size` is fully admitted, whether or not rollovers happen along
the way. -/
theorem runAcquires_all_allowed_of_room (config : RateLimitConfig)
    (ys : List ℚ) (s : WindowState)
    (h : s.count + ys.length ≤ config.burst_size) :
    (runAcquires config s ys).1 = List.replicate ys.length .allowed ∧
      (runAcquires config s ys).2.count ≤ s.count + ys.length := by
  induction ys generalizing s with
  | nil => exact ⟨rfl, Nat.le_add_right _ _⟩
  | cons t ts ih =>
    have hs₁ := maybe_reset_window_count_le config s t
    simp only [List.length_cons] at h
    have hlt : (maybe_reset_window config s t).count < config.burst_size := by
      omega
    have hstep : try_acquire config s t
        = (.allowed, ⟨(maybe_reset_window config s t).count + 1,
            (maybe_reset_window config s t).window_start⟩) := by
      simp only [try_acquire]
      rw [if_pos hlt]
    obtain ⟨ih1, ih2⟩ := ih ⟨(maybe_reset_window config s t).count + 1,
      (maybe_reset_window config s t).window_start⟩
      (by show (maybe_reset_window config s t).count + 1 + ts.length
            ≤ config.burst_size
          omega)
    rw [runAcquires_cons, hstep]
    dsimp only
    refine ⟨?_, ?_⟩
    · rw [ih1]
      simp only [List.length_cons, List.replicate_succ]
    · refine le_trans ih2 ?_
      show (maybe_reset_window config s t).count + 1 + ts.length
        ≤ s.count + (ts.length + 1)
      omega

end FixedWindow

/-- C4: with any burst `b` and window `w`, `b` calls within the first
window (from fresh state) followed by `b` calls at times at least `w`
after the window start are all admitted — the rollover zeroes the count,
so the second burst passes in full and `2*b` requests straddle the
boundary. -/
theorem C4_fixed_window_boundary_double_burst (config : RateLimitConfig)
    (t0 : ℚ) (xs ys : List ℚ)
    (hxs_len : xs.length = config.burst_size)
    (hys_len : ys.length = config.burst_size)
    (hxs : ∀ t ∈ xs, t0 ≤ t ∧ t - t0 < config.window_size)
    (hys : ∀ t ∈ ys, t0 + config.window_size ≤ t) :
    (FixedWindow.runAcquires config (FixedWindow.init t0) (xs ++ ys)).1
      = List.replicate (2 * config.burst_size) .allowed := by
  have hbatch1 := FixedWindow.runAcquires_within_window config t0 xs 0 hxs
    (by omega)
  rw [FixedWindow.runAcquires_append, FixedWindow.init, hbatch1]
  dsimp only
  cases ys with
  | nil =>
    have hB : config.burst_size = 0 := hys_len.symm
    simp [hB, hxs_len, FixedWindow.runAcquires]
  | cons u ts =>
    have hu := hys u (List.mem_cons_self u ts)
    have hstep : FixedWindow.try_acquire config ⟨0 + xs.length, t0⟩ u
        = (.allowed, ⟨1, u⟩) := by
      simp only [FixedWindow.try_acquire, FixedWindow.maybe_reset_window,
        duration_since]
      rw [if_pos (le_max_of_le_left (by linarith : config.window_size ≤ u - t0))]
      rw [if_pos (by show 0 < config.burst_size
                     simp only [List.length_cons] at hys_len; omega)]
    rw [FixedWindow.runAcquires_cons, hstep]
    dsimp only
    obtain ⟨ih1, _⟩ := FixedWindow.runAcquires_all_allowed_of_room config ts
      ⟨1, u⟩ (by show 1 + ts.length ≤ config.burst_size
                 simp only [List.length_cons] at hys_len; omega)
    rw [ih1, hxs_len]
    have h2 : 2 * config.burst_size = config.burst_size + (ts.length + 1) := by
      simp only [List.length_cons] at hys_len; omega
    rw [h2, List.replicate_add, List.replicate_succ]

/-- C4 witness: burst 2, window 1 s; calls at 0 and 1/2 inside the first
window, then at 1 and 1 just after the boundary: all four admitted. -/
theorem C4_fixed_window_boundary_double_burst_witness :
    (FixedWindow.runAcquires ⟨10, 2, 1⟩ (FixedWindow.init 0)
        ([0, 1/2] ++ [1, 1])).1 = List.replicate (2 * 2) .allowed := by
  have h := C4_fixed_window_boundary_double_burst ⟨10, 2, 1⟩ 0 [0, 1/2] [1, 1]
    rfl rfl ?_ ?_
  · exact h
  · intro t ht
    rcases List.mem_pair.mp ht with h | h <;> subst h <;> norm_num
  · intro t ht
    rcases List.mem_pair.mp ht with h | h <;> subst h <;> norm_num

/-- C3 counterexample: with burst 1 and a one-second window, a request
admitted at time 10 fills the window; a second request at time 10 is
denied with wait 1 — yet a retry at exactly `now + wait = 11` is *denied*
(with wait 0), because eviction removes only timestamps *strictly* older
than `now - window` and the oldest entry is exactly at the cutoff.  This
refutes the claim that a `try_acquire` performed exactly at `now + wait`
finds the oldest timestamp evicted and returns `Allowed`. -/
theorem C3_counterexample_exact_boundary_still_denied :
    SlidingWindow.try_acquire cfg_sw1 ⟨[]⟩ 10 = (.allowed, ⟨[10]⟩) ∧
    SlidingWindow.try_acquire cfg_sw1 ⟨[10]⟩ 10 = (.denied 1, ⟨[10]⟩) ∧
    (SlidingWindow.try_acquire cfg_sw1 ⟨[10]⟩ (10 + 1)).1 = .denied 0 := by
  refine ⟨?_, ?_, ?_⟩ <;>
    norm_num [SlidingWindow.try_acquire, SlidingWindow.clean_expired,
      SlidingWindow.calculate_wait_time, duration_since, cfg_sw1,
      List.dropWhile]

/-- C3 amended: when `try_acquire` at time `now` returns `Denied{wait}`
(from a state within the storage bound), `wait` equals
`(oldest_remaining_timestamp + window) - now`; the oldest entry falls out
of the window only *strictly after* `now + wait`: a `try_acquire`
performed at any time strictly later than `now + wait` (with no
intervening calls) finds the oldest timestamp evicted and returns
`Allowed` (at exactly `now + wait` it is still denied, as the
counterexample shows). -/
theorem C3_sliding_window_denial_wait_amended (config : RateLimitConfig)
    (s s' : SlidingWindow.WindowState) (now w : ℚ)
    (hburst : config.burst_size ≠ 0)
    (hlen : s.requests.length ≤ config.burst_size)
    (hden : SlidingWindow.try_acquire config s now = (.denied w, s')) :
    (∃ oldest rest, s'.requests = oldest :: rest ∧
        now - config.window_size ≤ oldest ∧
        w = oldest + config.window_size - now) ∧
    ∀ now', now + w < now' →
      (SlidingWindow.try_acquire config s' now').1 = .allowed := by
  simp only [SlidingWindow.try_acquire] at hden
  split_ifs at hden with hlt
  · exact absurd (congrArg Prod.fst hden) (by simp)
  · have hw : SlidingWindow.calculate_wait_time config
        (SlidingWindow.clean_expired config s now) now = w := by
      have := congrArg Prod.fst hden
      simpa using this
    have hs' : SlidingWindow.clean_expired config s now = s' := by
      have := congrArg Prod.snd hden
      simpa using this
    have hclean_le := SlidingWindow.clean_expired_length_le config s now
    have hlen_eq : (SlidingWindow.clean_expired config s now).requests.length
        = config.burst_size :=
      le_antisymm (hclean_le.trans hlen) (not_lt.mp hlt)
    obtain ⟨oldest, rest, hcons⟩ :=
      List.exists_cons_of_ne_nil (l := (SlidingWindow.clean_expired config
        s now).requests) (by
          intro hnil
          rw [hnil] at hlen_eq
          exact hburst hlen_eq.symm)
    have hpf : (fun first => decide (first < now - config.window_size)) oldest
        = false :=
      head_of_dropWhile_false _ s.requests oldest rest hcons
    have hold : now - config.window_size ≤ oldest :=
      not_lt.mp (by simpa using hpf)
    have hwval : w = oldest + config.window_size - now := by
      rw [← hw]
      simp only [SlidingWindow.calculate_wait_time, hcons, List.head?_cons,
        duration_since]
      exact max_eq_left (by linarith)
    have hs'req : s'.requests = oldest :: rest := by rw [← hs']; exact hcons
    have hrest_len : rest.length + 1 = config.burst_size := by
      rw [← hlen_eq, hcons, List.length_cons]
    refine ⟨⟨oldest, rest, hs'req, hold, hwval⟩, ?_⟩
    intro now' hnow'
    have hdrop : oldest < now' - config.window_size := by
      rw [hwval] at hnow'
      linarith
    simp only [SlidingWindow.try_acquire]
    rw [if_pos]
    · show ((SlidingWindow.clean_expired config s' now').requests.length
          < config.burst_size)
      simp only [SlidingWindow.clean_expired, hs'req]
      rw [List.dropWhile_cons_of_pos (by simpa using hdrop)]
      have := (List.dropWhile_sublist
        (fun first => decide (first < now' - config.window_size))
        (l := rest)).length_le
      omega

/-- C3 amended witness: instantiated at the counterexample's
configuration (burst 1, window 1 s), denied at time 10 with wait 1; a
retry at time 12 > 11 succeeds. -/
theorem C3_sliding_window_denial_wait_amended_witness :
    (∃ oldest rest,
        (SlidingWindow.WindowState.mk [10]).requests = oldest :: rest ∧
        (10 : ℚ) - cfg_sw1.window_size ≤ oldest ∧
        (1 : ℚ) = oldest + cfg_sw1.window_size - 10) ∧
    (SlidingWindow.try_acquire cfg_sw1 ⟨[10]⟩ 12).1 = .allowed := by
  have h := C3_sliding_window_denial_wait_amended cfg_sw1 ⟨[10]⟩ ⟨[10]⟩ 10 1
    (by decide)
    (by norm_num [cfg_sw1])
    (by norm_num [SlidingWindow.try_acquire, SlidingWindow.clean_expired,
      SlidingWindow.calculate_wait_time, duration_since, cfg_sw1,
      List.dropWhile])
  exact ⟨h.1, h.2 12 (by norm_num)⟩

/-- C6 counterexample: the token bucket's mutable state is *not* unchanged
by a denied call.  After exhausting `Config::per_second(10.0)`'s burst at
time 0 the state is `{tokens := 0, last_refill := 0}`; a denied
`try_acquire` at time 1/100 s leaves `{tokens := 1/10, last_refill :=
1/100}` — the refill-on-read step wrote both fields. -/
theorem C6_counterexample_token_bucket_denied_mutates :
    (TokenBucket.runAcquires cfg_ps10 (TokenBucket.init cfg_ps10 0)
        [0, 0, 0, 0, 0, 0, 0, 0, 0, 0]).2 = ⟨0, 0⟩ ∧
    TokenBucket.try_acquire cfg_ps10 ⟨0, 0⟩ (1 / 100)
      = (.denied (9 / 100), ⟨1 / 10, 1 / 100⟩) ∧
    (⟨1 / 10, 1 / 100⟩ : TokenBucket.BucketState) ≠ ⟨0, 0⟩ := by
  refine ⟨?_, ?_, ?_⟩
  · norm_num [TokenBucket.runAcquires, TokenBucket.try_acquire,
      TokenBucket.refill, TokenBucket.init, duration_since, cfg_ps10]
  · norm_num [TokenBucket.try_acquire, TokenBucket.refill,
      TokenBucket.calculate_wait_time, duration_since, cfg_ps10]
  · intro h
    have := congrArg TokenBucket.BucketState.tokens h
    norm_num at this

/-- C6 amended: a denied `try_acquire` leaves the sliding-window and
fixed-window state exactly unchanged (under the always-maintained
invariants `length ≤ burst` resp. `burst ≠ 0`); for the token bucket a
denied call performs exactly the refill-on-read bookkeeping — the
resulting state is `refill(s, now)`, so no permit is consumed, but the
`tokens` and `last_refill` fields may change. -/
theorem C6_denied_side_effects_amended :
    (∀ (config : RateLimitConfig) (s : TokenBucket.BucketState) (now w : ℚ)
        (s' : TokenBucket.BucketState),
        TokenBucket.try_acquire config s now = (.denied w, s') →
        s' = TokenBucket.refill config s now) ∧
    (∀ (config : RateLimitConfig) (s : SlidingWindow.WindowState) (now w : ℚ)
        (s' : SlidingWindow.WindowState),
        s.requests.length ≤ config.burst_size →
        SlidingWindow.try_acquire config s now = (.denied w, s') → s' = s) ∧
    (∀ (config : RateLimitConfig) (s : FixedWindow.WindowState) (now w : ℚ)
        (s' : FixedWindow.WindowState),
        config.burst_size ≠ 0 →
        FixedWindow.try_acquire config s now = (.denied w, s') → s' = s) := by
  refine ⟨?_, ?_, ?_⟩
  · intro config s now w s' h
    simp only [TokenBucket.try_acquire] at h
    split_ifs at h with h1
    · exact absurd (congrArg Prod.fst h) (by simp)
    · simpa using (congrArg Prod.snd h).symm
  · intro config s now w s' hlen h
    simp only [SlidingWindow.try_acquire] at h
    split_ifs at h with h1
    · exact absurd (congrArg Prod.fst h) (by simp)
    · have hs' : SlidingWindow.clean_expired config s now = s' := by
        simpa using congrArg Prod.snd h
      have heq := dropWhile_eq_self_of_length
        (fun first => decide (first < now - config.window_size)) s.requests
        (le_trans hlen (not_lt.mp h1))
      rw [← hs']
      simp only [SlidingWindow.clean_expired, heq]
  · intro config s now w s' hb h
    simp only [FixedWindow.try_acquire] at h
    split_ifs at h with h1
    · exact absurd (congrArg Prod.fst h) (by simp)
    · have hs' : FixedWindow.maybe_reset_window config s now = s' := by
        simpa using congrArg Prod.snd h
      rw [← hs']
      simp only [FixedWindow.maybe_reset_window] at h1 ⊢
      split_ifs at h1 ⊢ with h2
      · exact absurd (Nat.pos_of_ne_zero hb) (by simpa using h1)
      · rfl

/-- C6 amended witness: the three conjuncts at concrete denied calls — the
exhausted token bucket at time 1/100, the full sliding window of
`cfg_sw1` at time 10, and a full fixed window at time 10. -/
theorem C6_denied_side_effects_amended_witness :
    (⟨1 / 10, 1 / 100⟩ : TokenBucket.BucketState)
      = TokenBucket.refill cfg_ps10 ⟨0, 0⟩ (1 / 100) ∧
    (⟨[10]⟩ : SlidingWindow.WindowState) = ⟨[10]⟩ ∧
    (⟨1, 10⟩ : FixedWindow.WindowState) = ⟨1, 10⟩ :=
  ⟨C6_denied_side_effects_amended.1 cfg_ps10 ⟨0, 0⟩ (1 / 100) (9 / 100)
      ⟨1 / 10, 1 / 100⟩
      (by norm_num [TokenBucket.try_acquire, TokenBucket.refill,
        TokenBucket.calculate_wait_time, duration_since, cfg_ps10]),
   C6_denied_side_effects_amended.2.1 cfg_sw1 ⟨[10]⟩ 10 1 ⟨[10]⟩
      (by norm_num [cfg_sw1])
      (by norm_num [SlidingWindow.try_acquire, SlidingWindow.clean_expired,
        SlidingWindow.calculate_wait_time, duration_since, cfg_sw1,
        List.dropWhile]),
   C6_denied_side_effects_amended.2.2 cfg_sw1 ⟨1, 10⟩ 10 1 ⟨1, 10⟩
      (by decide)
      (by norm_num [FixedWindow.try_acquire, FixedWindow.maybe_reset_window,
        FixedWindow.calculate_wait_time, duration_since, cfg_sw1])⟩

/-- Whenever the `acquire` loop returns, its value is `Ok(())`, and the
return happened at an iteration whose `try_acquire` returned `Allowed`;
denial alone never produces an error. -/
theorem acquireLoop_returns_ok {σ : Type}
    (tryAcq : σ → ℚ → RateLimitResult × σ) (sched : List ℚ) (s : σ)
    (out : Except RateLimitError Unit × σ)
    (h : acquireLoop tryAcq sched s = some out) :
    out.1 = .ok () ∧ ∃ pre now post, sched = pre ++ now :: post ∧
      (tryAcq (threadState tryAcq pre s) now).1 = .allowed := by
  induction sched generalizing s with
  | nil => exact absurd h (by simp [acquireLoop])
  | cons now rest ih =>
    simp only [acquireLoop] at h
    rcases hr : tryAcq s now with ⟨r, s₁⟩
    rw [hr] at h
    cases r with
    | allowed =>
      have hout : out = (.ok (), s₁) := by simpa using h.symm
      refine ⟨by rw [hout], [], now, rest, rfl, ?_⟩
      simp only [threadState, hr]
    | denied wt =>
      obtain ⟨h1, pre, now', post, hsched, hacq⟩ := ih s₁ h
      refine ⟨h1, now :: pre, now', post, by rw [hsched]; rfl, ?_⟩
      simpa only [threadState, hr] using hacq

/-- C7: for every strategy, `acquire` never errors merely because of
continued denial: whenever it returns, the value is `Ok(())`, reached at
an iteration whose `try_acquire` returned `Allowed`.  (No strategy's
`try_acquire` has an internal-fault channel, so no `Err` is ever
produced.) -/
theorem C7_acquire_only_ok_after_allowed :
    (∀ (config : RateLimitConfig) (sched : List ℚ)
        (s : TokenBucket.BucketState)
        (out : Except RateLimitError Unit × TokenBucket.BucketState),
        TokenBucket.acquire config sched s = some out →
        out.1 = .ok () ∧ ∃ pre now post, sched = pre ++ now :: post ∧
          (TokenBucket.try_acquire config
            (threadState (TokenBucket.try_acquire config) pre s) now).1
            = .allowed) ∧
    (∀ (config : RateLimitConfig) (sched : List ℚ)
        (s : SlidingWindow.WindowState)
        (out : Except RateLimitError Unit × SlidingWindow.WindowState),
        SlidingWindow.acquire config sched s = some out →
        out.1 = .ok () ∧ ∃ pre now post, sched = pre ++ now :: post ∧
          (SlidingWindow.try_acquire config
            (threadState (SlidingWindow.try_acquire config) pre s) now).1
            = .allowed) ∧
    (∀ (config : RateLimitConfig) (sched : List ℚ)
        (s : FixedWindow.WindowState)
        (out : Except RateLimitError Unit × FixedWindow.WindowState),
        FixedWindow.acquire config sched s = some out →
        out.1 = .ok () ∧ ∃ pre now post, sched = pre ++ now :: post ∧
          (FixedWindow.try_acquire config
            (threadState (FixedWindow.try_acquire config) pre s) now).1
            = .allowed) :=
  ⟨fun _ sched s out h => acquireLoop_returns_ok _ sched s out h,
   fun _ sched s out h => acquireLoop_returns_ok _ sched s out h,
   fun _ sched s out h => acquireLoop_returns_ok _ sched s out h⟩

/-- C7 witness: each strategy's `acquire` running one iteration at time 0
from a fresh state returns `Ok(())` obtained from an `Allowed`
iteration. -/
theorem C7_acquire_only_ok_after_allowed_witness :
    ((Except.ok () : Except RateLimitError Unit) = .ok () ∧
      ∃ pre now post, ([0] : List ℚ) = pre ++ now :: post ∧
        (TokenBucket.try_acquire cfg_ps10
          (threadState (TokenBucket.try_acquire cfg_ps10) pre
            (TokenBucket.init cfg_ps10 0)) now).1 = .allowed) ∧
    ((Except.ok () : Except RateLimitError Unit) = .ok () ∧
      ∃ pre now post, ([0] : List ℚ) = pre ++ now :: post ∧
        (SlidingWindow.try_acquire cfg_ps10
          (threadState (SlidingWindow.try_acquire cfg_ps10) pre
            SlidingWindow.init) now).1 = .allowed) ∧
    ((Except.ok () : Except RateLimitError Unit) = .ok () ∧
      ∃ pre now post, ([0] : List ℚ) = pre ++ now :: post ∧
        (FixedWindow.try_acquire cfg_ps10
          (threadState (FixedWindow.try_acquire cfg_ps10) pre
            (FixedWindow.init 0)) now).1 = .allowed) := by
  refine ⟨?_, ?_, ?_⟩
  · refine (C7_acquire_only_ok_after_allowed.1 cfg_ps10 [0]
      (TokenBucket.init cfg_ps10 0) (.ok (), ?_) ?_).imp_left fun h => ?_
    · exact (TokenBucket.try_acquire cfg_ps10 (TokenBucket.init cfg_ps10 0) 0).2
    · simp only [TokenBucket.acquire, acquireLoop]
      rw [show TokenBucket.try_acquire cfg_ps10 (TokenBucket.init cfg_ps10 0) 0
          = (.allowed, ⟨9, 0⟩) by
        norm_num [TokenBucket.try_acquire, TokenBucket.refill,
          TokenBucket.init, duration_since, cfg_ps10]]
    · exact h
  · refine (C7_acquire_only_ok_after_allowed.2.1 cfg_ps10 [0]
      SlidingWindow.init (.ok (), ?_) ?_).imp_left fun h => ?_
    · exact (SlidingWindow.try_acquire cfg_ps10 SlidingWindow.init 0).2
    · simp only [SlidingWindow.acquire, acquireLoop]
      rw [show SlidingWindow.try_acquire cfg_ps10 SlidingWindow.init 0
          = (.allowed, ⟨[0]⟩) by
        norm_num [SlidingWindow.try_acquire, SlidingWindow.clean_expired,
          SlidingWindow.init, duration_since, cfg_ps10, List.dropWhile]]
    · exact h
  · refine (C7_acquire_only_ok_after_allowed.2.2 cfg_ps10 [0]
      (FixedWindow.init 0) (.ok (), ?_) ?_).imp_left fun h => ?_
    · exact (FixedWindow.try_acquire cfg_ps10 (FixedWindow.init 0) 0).2
    · simp only [FixedWindow.acquire, acquireLoop]
      rw [show FixedWindow.try_acquire cfg_ps10 (FixedWindow.init 0) 0
          = (.allowed, ⟨1, 0⟩) by
        norm_num [FixedWindow.try_acquire, FixedWindow.maybe_reset_window,
          FixedWindow.init, duration_since, cfg_ps10]]
    · exact h

/-- C8 counterexample: the wait time is not always convertible to a
`Duration`.  With the valid configuration `rate = 2⁻⁷⁰` (exactly
representable in `f64`; burst 1), the bucket admits one request and the
next denial computes `wait = (1 - 0) / 2⁻⁷⁰ = 2⁷⁰` seconds, on which
`Duration::from_secs_f64` panics (`2⁷⁰ ≥ 2⁶⁴`): the construction of the
`Duration` fails for this rate. -/
theorem C8_counterexample_duration_construction_fails :
    RateLimitConfig.new (1 / 2 ^ 70) 1 1 = .ok cfg_tiny ∧
    TokenBucket.try_acquire cfg_tiny (TokenBucket.init cfg_tiny 0) 0
      = (.allowed, ⟨0, 0⟩) ∧
    (TokenBucket.try_acquire cfg_tiny ⟨0, 0⟩ 0).1 = .denied (2 ^ 70) ∧
    duration_from_secs_checked (2 ^ 70) = none := by
  refine ⟨?_, ?_, ?_, ?_⟩
  · rw [RateLimitConfig.new, if_neg (by norm_num), if_neg (by norm_num)]
    rfl
  · norm_num [TokenBucket.try_acquire, TokenBucket.refill, TokenBucket.init,
      duration_since, cfg_tiny]
  · norm_num [TokenBucket.try_acquire, TokenBucket.refill,
      TokenBucket.calculate_wait_time, duration_since, cfg_tiny]
  · rw [duration_from_secs_checked, if_neg (by norm_num)]

/-- C8 amended: on every denial from a nonnegative token state with
positive rate, the wait time is strictly positive (never negative), at
most `1/rate` (finite), and its construction as a `Duration` succeeds
whenever `1/rate < 2⁶⁴` seconds — but not in general, as the
counterexample's rate `2⁻⁷⁰` shows. -/
theorem C8_wait_time_bounds_amended (config : RateLimitConfig)
    (s : TokenBucket.BucketState) (now w : ℚ)
    (s' : TokenBucket.BucketState)
    (hrate : 0 < config.requests_per_second)
    (htok : 0 ≤ s.tokens)
    (hden : TokenBucket.try_acquire config s now = (.denied w, s')) :
    0 < w ∧ w ≤ 1 / config.requests_per_second ∧
      (1 / config.requests_per_second < 2 ^ 64 →
        duration_from_secs_checked w = some w) := by
  simp only [TokenBucket.try_acquire] at hden
  split_ifs at hden with h1
  · exact absurd (congrArg Prod.fst hden) (by simp)
  · have hw : TokenBucket.calculate_wait_time config
        (1 - (TokenBucket.refill config s now).tokens) = w := by
      simpa using congrArg Prod.fst hden
    have hb := TokenBucket.refill_bounds config s now hrate.le htok
    have htlt : (TokenBucket.refill config s now).tokens < 1 := not_le.mp h1
    rw [← hw]
    simp only [TokenBucket.calculate_wait_time]
    have hpos : 0 < 1 / config.requests_per_second := by positivity
    have h1t : 0 < 1 - (TokenBucket.refill config s now).tokens := by linarith
    have h1t' : 1 - (TokenBucket.refill config s now).tokens ≤ 1 := by
      linarith [hb.1]
    have hwle : 1 / config.requests_per_second
        * (1 - (TokenBucket.refill config s now).tokens)
        ≤ 1 / config.requests_per_second := by
      calc 1 / config.requests_per_second
            * (1 - (TokenBucket.refill config s now).tokens)
          ≤ 1 / config.requests_per_second * 1 :=
            mul_le_mul_of_nonneg_left h1t' hpos.le
        _ = 1 / config.requests_per_second := mul_one _
    refine ⟨mul_pos hpos h1t, hwle, ?_⟩
    intro hlt
    rw [duration_from_secs_checked,
      if_pos ⟨(mul_pos hpos h1t).le, lt_of_le_of_lt hwle hlt⟩]

/-- C8 amended witness: the `Config::per_second(10.0)` bucket exhausted at
time 0 denies with wait 1/10 s, which is positive, at most 1/10 s, and
convertible to a `Duration`. -/
theorem C8_wait_time_bounds_amended_witness :
    (0 : ℚ) < 1 / 10 ∧
    (1 / 10 : ℚ) ≤ 1 / cfg_ps10.requests_per_second ∧
    duration_from_secs_checked (1 / 10) = some (1 / 10) := by
  have h := C8_wait_time_bounds_amended cfg_ps10 ⟨0, 0⟩ 0 (1 / 10) ⟨0, 0⟩
    (by norm_num [cfg_ps10]) (by norm_num)
    (by norm_num [TokenBucket.try_acquire, TokenBucket.refill,
      TokenBucket.calculate_wait_time, duration_since, cfg_ps10])
  exact ⟨h.1, h.2.1, h.2.2 (by norm_num [cfg_ps10])⟩

end InfraRateLimit
